import Mathlib

/-!
Verification of the trading-signals engine (`trading_decision_app.py`).

The development shallowly embeds the three core components of the program:
the indicator pipeline (`calculate_technical_indicators`), the rule-based
signal generator (`generate_signals`), and the price-target calculator
(`calculate_price_targets`).  Machine floats are modelled by exact
rationals; a float NaN (an indicator that is undefined for lack of
history, or the result of a 0/0 division) is modelled by `none` in
`Option ℚ`.  Python/NumPy comparison semantics — any comparison with NaN
is false, and division of a nonzero value by zero yields ±∞ — are encoded
explicitly where they matter.
-/

namespace TradingApp

/-- The three verdict values `"BUY"`, `"SELL"`, `"NEUTRAL"` used by the
signal generator. -/
inductive Verdict
  | BUY
  | SELL
  | NEUTRAL
deriving DecidableEq, Repr

/-- The rationale strings of `generate_signals`, one constructor per
literal string of the source:
`priceAboveBothSMAs` = "Price above both SMA20 and SMA50",
`priceBelowBothSMAs` = "Price below both SMA20 and SMA50",
`mixedMovingAverage` = "Mixed moving average signals",
`oversold v` = "Oversold condition (RSI: {v})",
`overbought v` = "Overbought condition (RSI: {v})",
`neutralRSI v` = "Neutral RSI ({v})",
`macdAboveSignalLine` = "MACD above signal line",
`macdBelowSignalLine` = "MACD below signal line",
`priceBelowLowerBand` = "Price below lower band",
`priceAboveUpperBand` = "Price above upper band",
`priceWithinBands` = "Price within bands".
The RSI rationales carry the (possibly undefined) RSI value that the
source interpolates into the string. -/
inductive Rationale
  | priceAboveBothSMAs
  | priceBelowBothSMAs
  | mixedMovingAverage
  | oversold (rsi : Option ℚ)
  | overbought (rsi : Option ℚ)
  | neutralRSI (rsi : Option ℚ)
  | macdAboveSignalLine
  | macdBelowSignalLine
  | priceBelowLowerBand
  | priceAboveUpperBand
  | priceWithinBands
deriving DecidableEq, Repr

/-- One element of the `signals` list of `generate_signals`: the tuple
`(indicator family, verdict, explanation)`. -/
structure Signal where
  family : String
  verdict : Verdict
  rationale : Rationale
deriving DecidableEq, Repr

/-- Python `a > b` on floats where either side may be NaN (`none`):
a comparison involving NaN is false. -/
def nanGt : Option ℚ → Option ℚ → Bool
  | some a, some b => decide (b < a)
  | _, _ => false

/-- Python `a < b` on floats where either side may be NaN (`none`):
a comparison involving NaN is false. -/
def nanLt : Option ℚ → Option ℚ → Bool
  | some a, some b => decide (a < b)
  | _, _ => false

/-- The latest enriched bar `df.iloc[-1]` as consumed by
`generate_signals`: the raw close (always present in the OHLCV input)
and the indicator columns, each possibly NaN (`none`) when the lookback
window had insufficient history. -/
structure LatestBar where
  Close : ℚ
  SMA_20 : Option ℚ
  SMA_50 : Option ℚ
  RSI : Option ℚ
  MACD : Option ℚ
  MACD_signal : Option ℚ
  BB_upper : Option ℚ
  BB_lower : Option ℚ
deriving DecidableEq, Repr

/-- Moving-average family rule of `generate_signals`
(`if latest['Close'] > latest['SMA_20'] > latest['SMA_50'] ... `);
the Python chained comparison `a > b > c` is `(a > b) and (b > c)`. -/
def movingAverageSignal (b : LatestBar) : Signal :=
  if nanGt (some b.Close) b.SMA_20 && nanGt b.SMA_20 b.SMA_50 then
    ⟨"Moving Average", .BUY, .priceAboveBothSMAs⟩
  else if nanLt (some b.Close) b.SMA_20 && nanLt b.SMA_20 b.SMA_50 then
    ⟨"Moving Average", .SELL, .priceBelowBothSMAs⟩
  else
    ⟨"Moving Average", .NEUTRAL, .mixedMovingAverage⟩

/-- RSI family rule of `generate_signals`
(`if latest['RSI'] < 30 ... elif latest['RSI'] > 70 ... else ...`). -/
def rsiFamilySignal (b : LatestBar) : Signal :=
  if nanLt b.RSI (some 30) then
    ⟨"RSI", .BUY, .oversold b.RSI⟩
  else if nanGt b.RSI (some 70) then
    ⟨"RSI", .SELL, .overbought b.RSI⟩
  else
    ⟨"RSI", .NEUTRAL, .neutralRSI b.RSI⟩

/-- MACD family rule of `generate_signals`
(`if latest['MACD'] > latest['MACD_signal'] ... else ...`): a binary
split with no NEUTRAL branch. -/
def macdFamilySignal (b : LatestBar) : Signal :=
  if nanGt b.MACD b.MACD_signal then
    ⟨"MACD", .BUY, .macdAboveSignalLine⟩
  else
    ⟨"MACD", .SELL, .macdBelowSignalLine⟩

/-- Bollinger-band family rule of `generate_signals`
(`if latest['Close'] < latest['BB_lower'] ... elif ... > BB_upper ...`). -/
def bollingerSignal (b : LatestBar) : Signal :=
  if nanLt (some b.Close) b.BB_lower then
    ⟨"Bollinger Bands", .BUY, .priceBelowLowerBand⟩
  else if nanGt (some b.Close) b.BB_upper then
    ⟨"Bollinger Bands", .SELL, .priceAboveUpperBand⟩
  else
    ⟨"Bollinger Bands", .NEUTRAL, .priceWithinBands⟩

/-- Predicate for `s[1] == "BUY"` in the aggregation comprehension. -/
def isBuyVerdict (s : Signal) : Bool :=
  match s.verdict with
  | .BUY => true
  | _ => false

/-- Predicate for `s[1] == "SELL"` in the aggregation comprehension. -/
def isSellVerdict (s : Signal) : Bool :=
  match s.verdict with
  | .SELL => true
  | _ => false

/-- Aggregation step of `generate_signals`: count BUY and SELL verdicts
and take the strict majority, defaulting to NEUTRAL on a tie. -/
def overallOf (signals : List Signal) : Verdict :=
  let buy_signals := (signals.filter isBuyVerdict).length
  let sell_signals := (signals.filter isSellVerdict).length
  if sell_signals < buy_signals then .BUY
  else if buy_signals < sell_signals then .SELL
  else .NEUTRAL

/-- The signal generator `TradingAnalyzer.generate_signals` restricted to
its core: from the latest enriched bar it builds the four family signals
in source order (moving average, RSI, MACD, Bollinger) and the overall
verdict. -/
def generate_signals (b : LatestBar) : List Signal × Verdict :=
  let signals := [movingAverageSignal b, rsiFamilySignal b,
                  macdFamilySignal b, bollingerSignal b]
  (signals, overallOf signals)

/-- Float division `a / b` with the non-finite outcomes (NaN from `0/0`,
±∞ from `x/0` with `x ≠ 0`) collapsed to `none`; in every use below the
numerator is zero whenever the denominator is, so `none` always models
the NaN that NumPy produces silently (warnings are suppressed by the
source's `filterwarnings('ignore')`). -/
def fdiv (a b : ℚ) : Option ℚ :=
  if b = 0 then none else some (a / b)

/-- Python's builtin `max(a, b)` on two numbers: the second argument wins
only when it is strictly larger.  On rationals this coincides with the
lattice `max` (see `pymax_eq_max`); it is spelled out so that concrete
plans evaluate inside `decide`. -/
def pymax (a b : ℚ) : ℚ := if a < b then b else a

/-- Python's builtin `min(a, b)` on two numbers; coincides with the
lattice `min` (see `pymin_eq_min`). -/
def pymin (a b : ℚ) : ℚ := if b < a then b else a

/-- The BUY branch result of `calculate_price_targets`. -/
structure BuyPlan where
  entry_price : ℚ
  stop_loss : ℚ
  take_profit : ℚ
  risk_reward : Option ℚ
deriving DecidableEq, Repr

/-- The SELL branch result of `calculate_price_targets`. -/
structure SellPlan where
  sell_price : ℚ
  profit_loss : ℚ
  profit_percentage : Option ℚ
  current_price : ℚ
deriving DecidableEq, Repr

/-- The dictionary returned by `calculate_price_targets` — one shape per
action branch. -/
inductive PricePlan
  | buy (p : BuyPlan)
  | sell (p : SellPlan)
deriving DecidableEq, Repr

/-- `TradingAnalyzer.calculate_price_targets`, parameterised by the three
market levels the method reads from its data (`latest['Support']`,
`latest['Resistance']`, `self.current_price`).  The SELL guard mirrors
Python's `action == "SELL" and buy_price`: `buy_price` is falsy exactly
when it is `None` or `0`, so a nonzero (even negative) basis price passes
the guard.  When no branch fires the method returns `None`. -/
def calculate_price_targets (support resistance current_price : ℚ)
    (action : String) (buy_price : Option ℚ) : Option PricePlan :=
  if action = "BUY" then
    let buy_target := pymax (support * 0.98) (current_price * 0.95)
    let stop_loss := buy_target * 0.95
    let take_profit := buy_target * 1.15
    some (.buy ⟨buy_target, stop_loss, take_profit,
      fdiv (take_profit - buy_target) (buy_target - stop_loss)⟩)
  else
    match buy_price with
    | some bp =>
      if action = "SELL" ∧ bp ≠ 0 then
        let sell_target := pymin (resistance * 1.02) (current_price * 1.05)
        let profit_loss := sell_target - bp
        some (.sell ⟨sell_target, profit_loss,
          (fdiv profit_loss bp).map (fun q => q * 100), current_price⟩)
      else none
    | none => none

/-- The rational `n / 1`, written with `mkRat` in place of the `Nat.cast`
coercion so that indicator values evaluate inside `decide`. -/
def natQ (n : ℕ) : ℚ := mkRat n 1

/-- Recursion core of `ewmAdj`: pandas `Series.ewm(span).mean()` with the
default `adjust=True` computes the weighted mean
`y[t] = (Σ β^i x[t-i]) / (Σ β^i)` with `β = 1 - α`; the numerator and
denominator are carried as accumulators. -/
def ewmAdjAux (β : ℚ) : List ℚ → ℚ → ℚ → List ℚ
  | [], _, _ => []
  | x :: rest, num, den =>
    let n := β * num + x
    let d := β * den + 1
    n / d :: ewmAdjAux β rest n d

/-- Pandas `Series.ewm(span=span).mean()` (default `adjust=True`,
`min_periods=0`), as used by the manual fallback path of
`calculate_technical_indicators`; `α = 2/(span+1)`. -/
def ewmAdj (span : ℕ) (xs : List ℚ) : List ℚ :=
  ewmAdjAux (1 - 2 / (natQ span + 1)) xs 0 0

/-- Manual fallback column `EMA_12 = Close.ewm(span=12).mean()`. -/
def EMA_12_manual (close : List ℚ) : List ℚ := ewmAdj 12 close

/-- Manual fallback column `EMA_26 = Close.ewm(span=26).mean()`. -/
def EMA_26_manual (close : List ℚ) : List ℚ := ewmAdj 26 close

/-- Manual fallback column `MACD = EMA_12 - EMA_26`. -/
def MACD_manual (close : List ℚ) : List ℚ :=
  List.zipWith (fun a b => a - b) (EMA_12_manual close) (EMA_26_manual close)

/-- Manual fallback column `MACD_signal = MACD.ewm(span=9).mean()`. -/
def MACD_signal_manual (close : List ℚ) : List ℚ :=
  ewmAdj 9 (MACD_manual close)

/-- Recursion core of `taEwm`: pandas `ewm(span, min_periods, adjust=False)`
over a series that may contain NaNs (`none`).  A NaN entry does not update
the state and the carried mean is emitted once `min_periods` valid
observations have been seen (only leading NaNs occur in this development,
where the state is still empty and the output is NaN).  A valid entry `v`
seeds the recurrence or updates it by `e ← (1-α)·e + α·v`, and the output
is masked to NaN until `min_periods` valid observations have been seen. -/
def taEwmAux (α : ℚ) (minp : ℕ) : List (Option ℚ) → Option ℚ → ℕ → List (Option ℚ)
  | [], _, _ => []
  | x :: rest, state, cnt =>
    match x with
    | none =>
      (if minp ≤ cnt then state else none) :: taEwmAux α minp rest state cnt
    | some v =>
      let e := match state with
        | none => v
        | some s => (1 - α) * s + α * v
      let c := cnt + 1
      (if minp ≤ c then some e else none) :: taEwmAux α minp rest (some e) c

/-- Modelled from the ta library's documented implementation: its `_ema`
helper is `series.ewm(span=span, min_periods=minp, adjust=False).mean()`;
`α = 2/(span+1)`. -/
def taEwm (span minp : ℕ) (xs : List (Option ℚ)) : List (Option ℚ) :=
  taEwmAux (2 / (natQ span + 1)) minp xs none 0

/-- Elementwise float subtraction of two indicator columns; NaN propagates. -/
def optSub (xs ys : List (Option ℚ)) : List (Option ℚ) :=
  List.zipWith (fun a b =>
    match a, b with
    | some x, some y => some (x - y)
    | _, _ => none) xs ys

/-- Precise-path column `EMA_12 = ta.trend.ema_indicator(Close, 12)`.
Modelled from the ta library documentation: an EMA with span 12 and
`min_periods = 12` (first 11 values NaN). -/
def EMA_12_ta (close : List ℚ) : List (Option ℚ) :=
  taEwm 12 12 (close.map some)

/-- Precise-path column `EMA_26 = ta.trend.ema_indicator(Close, 26)`. -/
def EMA_26_ta (close : List ℚ) : List (Option ℚ) :=
  taEwm 26 26 (close.map some)

/-- The MACD line of the ta library: `EMA_fast(12) - EMA_slow(26)`.
Modelled from the ta library documentation of `ta.trend.MACD`. -/
def macd_line_ta (close : List ℚ) : List (Option ℚ) :=
  optSub (EMA_12_ta close) (EMA_26_ta close)

/-- Precise-path column `MACD_signal = ta.trend.macd_signal(Close)`:
EMA(9) of the MACD line, with `min_periods = 9` valid observations.
Modelled from the ta library documentation. -/
def MACD_signal_ta (close : List ℚ) : List (Option ℚ) :=
  taEwm 9 9 (macd_line_ta close)

/-- Precise-path column `MACD = ta.trend.macd_diff(Close)`.  Modelled from
the ta library documentation: `macd_diff` is the MACD *histogram*, the MACD
line minus its signal line — not the MACD line itself. -/
def MACD_ta (close : List ℚ) : List (Option ℚ) :=
  optSub (macd_line_ta close) (MACD_signal_ta close)

/-- The series `delta = Close.diff()` of the manual RSI computation:
NaN at index 0, `close[t] - close[t-1]` afterwards. -/
def deltas (close : List ℚ) : List (Option ℚ) :=
  match close with
  | [] => []
  | _ :: tail => none :: List.zipWith (fun prev cur => some (cur - prev)) close tail

/-- `gain = delta.where(delta > 0, 0)`: the positive moves; the leading
NaN compares false against 0 and is replaced by 0. -/
def gains (close : List ℚ) : List ℚ :=
  (deltas close).map fun d =>
    match d with
    | some v => if 0 < v then v else 0
    | none => 0

/-- `loss = -(delta.where(delta < 0, 0))`: the magnitudes of the negative
moves; the leading NaN compares false against 0 and is replaced by 0. -/
def losses (close : List ℚ) : List ℚ :=
  (deltas close).map fun d =>
    match d with
    | some v => if v < 0 then -v else 0
    | none => 0

/-- Pandas `Series.rolling(window=w).mean()`: the trailing mean of the
last `w` entries, NaN (`none`) for the first `w - 1` positions. -/
def rollMean (w : ℕ) (xs : List ℚ) : List (Option ℚ) :=
  (List.range xs.length).map fun t =>
    if w ≤ t + 1 then some ((((xs.take (t + 1)).drop (t + 1 - w)).sum) / natQ w)
    else none

/-- `gain.rolling(window=14).mean()` of the manual RSI computation. -/
def avg_gain (close : List ℚ) : List (Option ℚ) := rollMean 14 (gains close)

/-- `loss.rolling(window=14).mean()` of the manual RSI computation. -/
def avg_loss (close : List ℚ) : List (Option ℚ) := rollMean 14 (losses close)

/-- Manual fallback column `RSI = 100 - 100/(1 + rs)` with
`rs = avg_gain / avg_loss`, under IEEE float semantics: when
`avg_loss ≠ 0` the quotient is finite and the formula applies; when
`avg_loss = 0` and `avg_gain ≠ 0` the quotient is +∞ (NumPy emits a
suppressed warning, no exception) and `100 - 100/(1 + ∞) = 100`; when
both are 0 the quotient is NaN and the RSI is NaN (`none`). -/
def RSI_manual (close : List ℚ) : List (Option ℚ) :=
  List.zipWith (fun g? l? =>
    match g?, l? with
    | some g, some l =>
      if l ≠ 0 then some (100 - 100 / (1 + g / l))
      else if g ≠ 0 then some 100
      else none
    | _, _ => none) (avg_gain close) (avg_loss close)

/-- Python's `max` on two rationals is the lattice `max`. -/
theorem pymax_eq_max (a b : ℚ) : pymax a b = max a b := by
  unfold pymax
  by_cases h : a < b
  · rw [if_pos h, max_eq_right h.le]
  · rw [if_neg h, max_eq_left (not_lt.mp h)]

/-- Python's `min` on two rationals is the lattice `min`. -/
theorem pymin_eq_min (a b : ℚ) : pymin a b = min a b := by
  unfold pymin
  by_cases h : b < a
  · rw [if_pos h, min_eq_right h.le]
  · rw [if_neg h, min_eq_left (not_lt.mp h)]

/-- Evaluation of the BUY branch of `calculate_price_targets`: shared
helper for the price-plan theorems. -/
theorem cpt_buy_eq (support resistance current_price : ℚ) :
    calculate_price_targets support resistance current_price "BUY" none =
      some (PricePlan.buy
        ⟨pymax (support * 0.98) (current_price * 0.95),
         pymax (support * 0.98) (current_price * 0.95) * 0.95,
         pymax (support * 0.98) (current_price * 0.95) * 1.15,
         fdiv (pymax (support * 0.98) (current_price * 0.95) * 1.15 -
               pymax (support * 0.98) (current_price * 0.95))
              (pymax (support * 0.98) (current_price * 0.95) -
               pymax (support * 0.98) (current_price * 0.95) * 0.95)⟩) := rfl

/-- C1: for every latest enriched bar, `generate_signals` produces exactly
four family signals, its overall verdict is the strict majority of the BUY
and SELL counts among them (NEUTRAL on a tie, including zero of each), and
the overall verdict is always one of BUY, SELL, NEUTRAL. -/
theorem generateSignals_overall_majority (b : LatestBar) :
    ((generate_signals b).1).length = 4 ∧
    (generate_signals b).2 =
      (if (((generate_signals b).1).filter isSellVerdict).length <
          (((generate_signals b).1).filter isBuyVerdict).length then Verdict.BUY
       else if (((generate_signals b).1).filter isBuyVerdict).length <
          (((generate_signals b).1).filter isSellVerdict).length then Verdict.SELL
       else Verdict.NEUTRAL) ∧
    ((generate_signals b).2 = Verdict.BUY ∨ (generate_signals b).2 = Verdict.SELL ∨
     (generate_signals b).2 = Verdict.NEUTRAL) := by
  refine ⟨rfl, rfl, ?_⟩
  cases (generate_signals b).2 with
  | BUY => exact Or.inl rfl
  | SELL => exact Or.inr (Or.inl rfl)
  | NEUTRAL => exact Or.inr (Or.inr rfl)

/-- C2 counterexample: on a latest bar whose MACD value is undefined
(insufficient history) while every other indicator is defined, the MACD
family verdict is SELL — not the NEUTRAL verdict the claim requires — and
its rationale is the generic "MACD below signal line", not an
insufficient-history note. -/
theorem undefined_macd_sell_cex :
    macdFamilySignal ⟨100, some 99, some 98, some 50, none, none, some 110, some 90⟩ =
      ⟨"MACD", Verdict.SELL, Rationale.macdBelowSignalLine⟩ ∧
    Verdict.SELL ≠ Verdict.NEUTRAL :=
  of_decide_eq_true (by with_unfolding_all rfl)

/-- C2 amended: the generator never fails (it always yields four signals);
an undefined SMA, RSI or Bollinger comparison falls through to that
family's NEUTRAL branch with its generic rationale (there is no
insufficient-history rationale in the program), while an undefined MACD or
MACD-signal value makes the MACD family produce SELL, not NEUTRAL. -/
theorem undefined_indicator_behavior (b : LatestBar) :
    ((generate_signals b).1).length = 4 ∧
    (b.MACD = none ∨ b.MACD_signal = none →
      macdFamilySignal b = ⟨"MACD", Verdict.SELL, Rationale.macdBelowSignalLine⟩) ∧
    (b.SMA_20 = none ∨ b.SMA_50 = none →
      movingAverageSignal b =
        ⟨"Moving Average", Verdict.NEUTRAL, Rationale.mixedMovingAverage⟩) ∧
    (b.RSI = none →
      rsiFamilySignal b = ⟨"RSI", Verdict.NEUTRAL, Rationale.neutralRSI none⟩) ∧
    (b.BB_lower = none ∧ b.BB_upper = none →
      bollingerSignal b =
        ⟨"Bollinger Bands", Verdict.NEUTRAL, Rationale.priceWithinBands⟩) := by
  refine ⟨rfl, ?_, ?_, ?_, ?_⟩
  · rintro (h | h)
    · unfold macdFamilySignal
      rw [h]
      rfl
    · unfold macdFamilySignal
      rw [h]
      cases b.MACD <;> rfl
  · rintro (h | h)
    · unfold movingAverageSignal
      rw [h]
      rfl
    · unfold movingAverageSignal
      rw [h]
      cases b.SMA_20 with
      | none => rfl
      | some v =>
        cases hgt : nanGt (some b.Close) (some v) <;>
          cases hlt : nanLt (some b.Close) (some v) <;> rfl
  · intro h
    unfold rsiFamilySignal
    rw [h]
    rfl
  · rintro ⟨hl, hu⟩
    unfold bollingerSignal
    rw [hl, hu]
    rfl

/-- C2 witness: the amended behaviour at a concrete bar with every
indicator undefined. -/
theorem undefined_indicator_behavior_witness :
    macdFamilySignal ⟨100, none, none, none, none, none, none, none⟩ =
      ⟨"MACD", Verdict.SELL, Rationale.macdBelowSignalLine⟩ ∧
    movingAverageSignal ⟨100, none, none, none, none, none, none, none⟩ =
      ⟨"Moving Average", Verdict.NEUTRAL, Rationale.mixedMovingAverage⟩ ∧
    rsiFamilySignal ⟨100, none, none, none, none, none, none, none⟩ =
      ⟨"RSI", Verdict.NEUTRAL, Rationale.neutralRSI none⟩ ∧
    bollingerSignal ⟨100, none, none, none, none, none, none, none⟩ =
      ⟨"Bollinger Bands", Verdict.NEUTRAL, Rationale.priceWithinBands⟩ :=
  ⟨(undefined_indicator_behavior _).2.1 (Or.inl rfl),
   (undefined_indicator_behavior _).2.2.1 (Or.inl rfl),
   (undefined_indicator_behavior _).2.2.2.1 rfl,
   (undefined_indicator_behavior _).2.2.2.2 ⟨rfl, rfl⟩⟩

/-- C3: when MACD and MACD-signal are both defined on the latest bar, the
MACD family verdict is BUY exactly when MACD exceeds the signal line and
SELL exactly otherwise; the verdict is never NEUTRAL, and equality of the
two values yields SELL. -/
theorem macd_verdict_binary (b : LatestBar) (m s : ℚ)
    (hm : b.MACD = some m) (hs : b.MACD_signal = some s) :
    ((macdFamilySignal b).verdict = Verdict.BUY ↔ s < m) ∧
    ((macdFamilySignal b).verdict = Verdict.SELL ↔ m ≤ s) ∧
    (macdFamilySignal b).verdict ≠ Verdict.NEUTRAL ∧
    (m = s → macdFamilySignal b = ⟨"MACD", Verdict.SELL, Rationale.macdBelowSignalLine⟩) := by
  have hsig : macdFamilySignal b =
      (if s < m then (⟨"MACD", Verdict.BUY, Rationale.macdAboveSignalLine⟩ : Signal)
       else ⟨"MACD", Verdict.SELL, Rationale.macdBelowSignalLine⟩) := by
    unfold macdFamilySignal
    rw [hm, hs]
    by_cases h : s < m
    · rw [if_pos (by simp [nanGt, h]), if_pos h]
    · rw [if_neg (by simp [nanGt, h]), if_neg h]
  rw [hsig]
  by_cases h : s < m
  · rw [if_pos h]
    exact ⟨⟨fun _ => h, fun _ => rfl⟩,
      ⟨fun hv => absurd hv (by decide), fun hle => absurd h (not_lt.mpr hle)⟩,
      by decide,
      fun hms => absurd (hms ▸ h) (lt_irrefl s)⟩
  · rw [if_neg h]
    exact ⟨⟨fun hv => absurd hv (by decide), fun hlt => absurd hlt h⟩,
      ⟨fun _ => not_lt.mp h, fun _ => rfl⟩,
      by decide,
      fun _ => rfl⟩

/-- C3 witness: at MACD = MACD-signal = 1, the verdict is SELL. -/
theorem macd_verdict_binary_witness :
    macdFamilySignal ⟨100, none, none, none, some 1, some 1, none, none⟩ =
      ⟨"MACD", Verdict.SELL, Rationale.macdBelowSignalLine⟩ :=
  (macd_verdict_binary ⟨100, none, none, none, some 1, some 1, none, none⟩ 1 1
    rfl rfl).2.2.2 rfl

set_option maxRecDepth 4000 in
/-- C4 (code bug evidence): on the close series of 33 zeros followed by a
10, at bar 33 the precise-path `MACD` column (`ta.trend.macd_diff`, the
MACD histogram) holds `224/351`, while `EMA_12 - EMA_26` at the same bar
is `280/351` — so the stored MACD is not EMA(12) − EMA(26) under the
precise strategy. -/
theorem precise_macd_histogram_eval :
    (MACD_ta (List.replicate 33 0 ++ [10])).get? 33 = some (some (224/351)) ∧
    (optSub (EMA_12_ta (List.replicate 33 0 ++ [10]))
            (EMA_26_ta (List.replicate 33 0 ++ [10]))).get? 33 =
      some (some (280/351)) ∧
    (224/351 : ℚ) ≠ 280/351 :=
  of_decide_eq_true (by with_unfolding_all rfl)

set_option maxRecDepth 4000 in
/-- C5 counterexample: on the constant series of fourteen bars at price
100, the trailing average gain and average loss at bar 13 are both
defined and equal to 0, yet the manual RSI there is NaN (undefined) — not
the 50 the claim requires. -/
theorem flat_series_rsi_undefined_cex :
    (avg_gain (List.replicate 14 100)).get? 13 = some (some 0) ∧
    (avg_loss (List.replicate 14 100)).get? 13 = some (some 0) ∧
    (RSI_manual (List.replicate 14 100)).get? 13 = some none ∧
    (some none : Option (Option ℚ)) ≠ some (some 50) :=
  of_decide_eq_true (by with_unfolding_all rfl)

/-- C5 amended: wherever the trailing averages are defined with
average loss 0, the manual RSI is 100 when the average gain is nonzero
(the division yields +∞, not an exception), and NaN (undefined), not 50,
when the average gain is 0 as on a constant-price window. -/
theorem rsi_zero_loss_cases (close : List ℚ) (t : ℕ) (g : ℚ)
    (hg : (avg_gain close).get? t = some (some g))
    (hl : (avg_loss close).get? t = some (some 0)) :
    (g ≠ 0 → (RSI_manual close).get? t = some (some 100)) ∧
    (g = 0 → (RSI_manual close).get? t = some none) := by
  have key : (RSI_manual close).get? t =
      some (if (0 : ℚ) ≠ 0 then some (100 - 100 / (1 + g / 0))
            else if g ≠ 0 then some 100 else none) := by
    unfold RSI_manual
    rw [List.get?_zipWith', hg, hl]
    rfl
  constructor
  · intro hgn
    rw [key, if_neg (by simp), if_pos hgn]
  · intro hg0
    rw [key, if_neg (by simp), if_neg (by simp [hg0])]

set_option maxRecDepth 4000 in
/-- C5 witness: on fourteen strictly increasing closes the average loss is
0, the average gain is 13/14 ≠ 0, and the RSI is 100. -/
theorem rsi_zero_loss_cases_witness :
    (RSI_manual ([0, 1, 2, 3, 4, 5, 6, 7, 8, 9, 10, 11, 12, 13] : List ℚ)).get? 13 =
      some (some 100) :=
  (rsi_zero_loss_cases ([0, 1, 2, 3, 4, 5, 6, 7, 8, 9, 10, 11, 12, 13] : List ℚ)
    13 (13/14) (of_decide_eq_true (by with_unfolding_all rfl))
    (of_decide_eq_true (by with_unfolding_all rfl))).1 (by norm_num)

/-- C6: for every support level and current price with nonzero computed
entry, the BUY branch returns entry = max(support·0.98, price·0.95),
stop-loss = entry·0.95, take-profit = entry·1.15, and risk/reward equal to
(take-profit − entry)/(entry − stop-loss). -/
theorem buy_plan_formulas (support resistance current_price : ℚ)
    (h : pymax (support * 0.98) (current_price * 0.95) ≠ 0) :
    calculate_price_targets support resistance current_price "BUY" none =
      some (PricePlan.buy
        ⟨pymax (support * 0.98) (current_price * 0.95),
         pymax (support * 0.98) (current_price * 0.95) * 0.95,
         pymax (support * 0.98) (current_price * 0.95) * 1.15,
         some ((pymax (support * 0.98) (current_price * 0.95) * 1.15 -
                pymax (support * 0.98) (current_price * 0.95)) /
               (pymax (support * 0.98) (current_price * 0.95) -
                pymax (support * 0.98) (current_price * 0.95) * 0.95))⟩) := by
  have hden : pymax (support * 0.98) (current_price * 0.95) -
      pymax (support * 0.98) (current_price * 0.95) * 0.95 ≠ 0 := by
    intro hc
    apply h
    set e := pymax (support * 0.98) (current_price * 0.95)
    linarith
  rw [cpt_buy_eq]
  unfold fdiv
  rw [if_neg hden]

/-- C6 witness: the plan at support 100 and current price 105. -/
theorem buy_plan_formulas_witness :
    calculate_price_targets 100 0 105 "BUY" none =
      some (PricePlan.buy
        ⟨pymax (100 * 0.98) (105 * 0.95),
         pymax (100 * 0.98) (105 * 0.95) * 0.95,
         pymax (100 * 0.98) (105 * 0.95) * 1.15,
         some ((pymax (100 * 0.98) (105 * 0.95) * 1.15 - pymax (100 * 0.98) (105 * 0.95)) /
               (pymax (100 * 0.98) (105 * 0.95) - pymax (100 * 0.98) (105 * 0.95) * 0.95))⟩) :=
  buy_plan_formulas 100 0 105 (of_decide_eq_true (by with_unfolding_all rfl))

/-- C7 counterexample: at support 0 and current price 0 the entry equals
the stop-loss (both 0), yet the calculator does not signal an error: it
returns a full plan whose risk/reward is the silent NaN of the 0/0
division. -/
theorem entry_zero_plan_returned_cex :
    calculate_price_targets 0 0 0 "BUY" none =
      some (PricePlan.buy ⟨0, 0, 0, none⟩) ∧
    (calculate_price_targets 0 0 0 "BUY" none).isSome = true :=
  of_decide_eq_true (by with_unfolding_all rfl)

/-- C7 amended: entry equals stop-loss exactly when the entry is zero, and
in that case the BUY branch still returns a plan — entry, stop-loss and
take-profit all 0 and risk/reward NaN (undefined) — rather than an
explicit error result. -/
theorem entry_zero_risk_reward_nan (support resistance current_price e : ℚ)
    (he : e = pymax (support * 0.98) (current_price * 0.95)) :
    (e - e * 0.95 = 0 ↔ e = 0) ∧
    (e = 0 →
      calculate_price_targets support resistance current_price "BUY" none =
        some (PricePlan.buy ⟨0, 0, 0, none⟩)) := by
  refine ⟨⟨fun hc => by linarith, fun h0 => by rw [h0]; ring⟩, fun h0 => ?_⟩
  rw [cpt_buy_eq, ← he, h0]
  norm_num [fdiv]

/-- C7 witness: the amended behaviour at support 0 and current price 0. -/
theorem entry_zero_risk_reward_nan_witness :
    calculate_price_targets 0 0 0 "BUY" none =
      some (PricePlan.buy ⟨0, 0, 0, none⟩) :=
  (entry_zero_risk_reward_nan 0 0 0 (pymax (0 * 0.98) (0 * 0.95)) rfl).2
    (of_decide_eq_true (by with_unfolding_all rfl))

/-- C8 counterexample: a SELL request with the negative basis price −1 is
not rejected — the calculator returns a full sell plan (resistance 120,
current price 115). -/
theorem negative_basis_plan_cex :
    calculate_price_targets 100 120 115 "SELL" (some (-1)) =
      some (PricePlan.sell ⟨483/4, 487/4, some (-12175), 115⟩) := by
  norm_num [calculate_price_targets, pymin, fdiv]
  intro h
  exact absurd h (by decide)

/-- C8 amended: a SELL request with a missing basis price returns no plan,
and so does a basis price of exactly 0 (Python falsiness); but every
nonzero basis price — negative ones included — produces a plan, so a plan
is not restricted to positive basis prices. -/
theorem sell_basis_truthiness (support resistance current_price : ℚ) :
    calculate_price_targets support resistance current_price "SELL" none = none ∧
    calculate_price_targets support resistance current_price "SELL" (some 0) = none ∧
    (∀ bp : ℚ, bp ≠ 0 →
      calculate_price_targets support resistance current_price "SELL" (some bp) =
        some (PricePlan.sell
          ⟨pymin (resistance * 1.02) (current_price * 1.05),
           pymin (resistance * 1.02) (current_price * 1.05) - bp,
           some ((pymin (resistance * 1.02) (current_price * 1.05) - bp) / bp * 100),
           current_price⟩)) := by
  have step : ∀ bp : ℚ,
      calculate_price_targets support resistance current_price "SELL" (some bp) =
        (if ("SELL" : String) = "SELL" ∧ bp ≠ 0 then
          some (PricePlan.sell
            ⟨pymin (resistance * 1.02) (current_price * 1.05),
             pymin (resistance * 1.02) (current_price * 1.05) - bp,
             (fdiv (pymin (resistance * 1.02) (current_price * 1.05) - bp) bp).map
               (fun q => q * 100),
             current_price⟩)
         else none) := fun bp => rfl
  refine ⟨rfl, ?_, ?_⟩
  · rw [step 0, if_neg (by simp)]
  · intro bp hbp
    rw [step bp, if_pos ⟨rfl, hbp⟩]
    unfold fdiv
    rw [if_neg hbp]
    rfl

/-- C8 witness: the amended behaviour at a concrete nonzero basis price. -/
theorem sell_basis_truthiness_witness :
    calculate_price_targets 100 120 115 "SELL" (some 50) =
      some (PricePlan.sell
        ⟨pymin (120 * 1.02) (115 * 1.05),
         pymin (120 * 1.02) (115 * 1.05) - 50,
         some ((pymin (120 * 1.02) (115 * 1.05) - 50) / 50 * 100),
         115⟩) :=
  (sell_basis_truthiness 100 120 115).2.2 50 (by norm_num)

/-- C9: when close, SMA20 and SMA50 are all defined on the latest bar, the
moving-average family signal is BUY with rationale "price above both SMAs"
exactly when close > SMA20 > SMA50, SELL with rationale "price below both
SMAs" exactly when close < SMA20 < SMA50, and NEUTRAL with rationale
"mixed moving average signals" in every other ordering. -/
theorem moving_average_verdict (b : LatestBar) (s20 s50 : ℚ)
    (h20 : b.SMA_20 = some s20) (h50 : b.SMA_50 = some s50) :
    movingAverageSignal b =
      (if s20 < b.Close ∧ s50 < s20 then
        ⟨"Moving Average", Verdict.BUY, Rationale.priceAboveBothSMAs⟩
       else if b.Close < s20 ∧ s20 < s50 then
        ⟨"Moving Average", Verdict.SELL, Rationale.priceBelowBothSMAs⟩
       else ⟨"Moving Average", Verdict.NEUTRAL, Rationale.mixedMovingAverage⟩) := by
  have hb : (nanGt (some b.Close) b.SMA_20 && nanGt b.SMA_20 b.SMA_50) = true ↔
      (s20 < b.Close ∧ s50 < s20) := by
    rw [h20, h50]
    simp [nanGt]
  have hs : (nanLt (some b.Close) b.SMA_20 && nanLt b.SMA_20 b.SMA_50) = true ↔
      (b.Close < s20 ∧ s20 < s50) := by
    rw [h20, h50]
    simp [nanLt]
  unfold movingAverageSignal
  by_cases h1 : s20 < b.Close ∧ s50 < s20
  · rw [if_pos (hb.mpr h1), if_pos h1]
  · rw [if_neg (fun hc => h1 (hb.mp hc)), if_neg h1]
    by_cases h2 : b.Close < s20 ∧ s20 < s50
    · rw [if_pos (hs.mpr h2), if_pos h2]
    · rw [if_neg (fun hc => h2 (hs.mp hc)), if_neg h2]

/-- C9 witness: close 150 above SMA20 = 145 above SMA50 = 140 yields the
BUY signal. -/
theorem moving_average_verdict_witness :
    movingAverageSignal ⟨150, some 145, some 140, none, none, none, none, none⟩ =
      (if (145 : ℚ) < 150 ∧ (140 : ℚ) < 145 then
        ⟨"Moving Average", Verdict.BUY, Rationale.priceAboveBothSMAs⟩
       else if (150 : ℚ) < 145 ∧ (145 : ℚ) < 140 then
        ⟨"Moving Average", Verdict.SELL, Rationale.priceBelowBothSMAs⟩
       else ⟨"Moving Average", Verdict.NEUTRAL, Rationale.mixedMovingAverage⟩) :=
  moving_average_verdict ⟨150, some 145, some 140, none, none, none, none, none⟩
    145 140 rfl rfl

/-- C10: whenever the computed entry price is strictly positive, the BUY
plan satisfies stop-loss < entry < take-profit, and the risk/reward ratio
is exactly 3, independent of the support level and current price. -/
theorem buy_plan_risk_reward_three (support resistance current_price : ℚ)
    (h : 0 < pymax (support * 0.98) (current_price * 0.95)) :
    calculate_price_targets support resistance current_price "BUY" none =
      some (PricePlan.buy
        ⟨pymax (support * 0.98) (current_price * 0.95),
         pymax (support * 0.98) (current_price * 0.95) * 0.95,
         pymax (support * 0.98) (current_price * 0.95) * 1.15,
         some 3⟩) ∧
    pymax (support * 0.98) (current_price * 0.95) * 0.95 <
      pymax (support * 0.98) (current_price * 0.95) ∧
    pymax (support * 0.98) (current_price * 0.95) <
      pymax (support * 0.98) (current_price * 0.95) * 1.15 := by
  set e := pymax (support * 0.98) (current_price * 0.95) with he
  have hne : e - e * 0.95 ≠ 0 := by
    intro hc
    linarith
  refine ⟨?_, by linarith, by linarith⟩
  rw [cpt_buy_eq, ← he]
  unfold fdiv
  rw [if_neg hne]
  have hval : (e * 1.15 - e) / (e - e * 0.95) = 3 := by
    rw [div_eq_iff hne]
    ring
  rw [hval]

/-- C10 witness: at support 50 and current price 40 the entry is 49, the
bounds hold and the risk/reward is 3. -/
theorem buy_plan_risk_reward_three_witness :
    calculate_price_targets 50 0 40 "BUY" none =
      some (PricePlan.buy
        ⟨pymax (50 * 0.98) (40 * 0.95),
         pymax (50 * 0.98) (40 * 0.95) * 0.95,
         pymax (50 * 0.98) (40 * 0.95) * 1.15,
         some 3⟩) :=
  (buy_plan_risk_reward_three 50 0 40 (of_decide_eq_true (by with_unfolding_all rfl))).1

end TradingApp
